import Mathlib

/-!
Verification of the cord.py SDK core: the statement validator
(`packages/statement/src/statement.py`) and the connection manager
(`packages/config/src/config.py`).

Python dictionaries over string keys are embedded as association lists;
Python values appearing in this code (strings, booleans, `None`) as `PyVal`.
External collaborators (identifier checking, hex validation, URI derivation,
the chain fetch and the transport) are abstracted as parameters, following
the spec, which treats them as black boxes.
-/

/-- A Python value as used by the statement module: `None`, a bool or a str. -/
inductive PyVal where
  | none
  | bool (b : Bool)
  | str (s : String)
deriving DecidableEq

/-- Python truthiness for the values of `PyVal`. -/
def PyVal.truthy : PyVal → Bool
  | .none => false
  | .bool b => b
  | .str s => s != ""

/-- A Python dict with string keys, as an association list. -/
structure PyDict where
  entries : List (String × PyVal)
deriving DecidableEq

/-- Dictionary lookup, `None`-free: `some v` iff the key is present. -/
def PyDict.get (d : PyDict) (k : String) : Option PyVal :=
  (d.entries.find? (fun kv => kv.1 == k)).map (fun kv => kv.2)

/-- Python `k in d`. -/
def PyDict.hasKey (d : PyDict) (k : String) : Bool :=
  d.entries.any (fun kv => kv.1 == k)

/-- Python `d.get(k)`: the stored value, or `None` when the key is absent. -/
def PyDict.getDefault (d : PyDict) (k : String) : PyVal :=
  (d.get k).getD .none

/-- A Python exception escaping the statement-status comparison: only key
lookups (`d[k]`) can raise there. -/
inductive PyExn where
  | keyError (k : String)
deriving DecidableEq

/-- The text Python interpolates for the exception (`str(KeyError(k))` is the
quoted key). -/
def PyExn.render : PyExn → String
  | .keyError k => "\x27" ++ k ++ "\x27"

/-- Python `d[k]`: the value, or a `KeyError`. -/
def PyDict.index (d : PyDict) (k : String) : Except PyExn PyVal :=
  match d.get k with
  | some v => .ok v
  | none => .error (.keyError k)

/-- Truthiness of an optional-string argument (`None` and `""` are falsy). -/
def optTruthy : Option String → Bool
  | Option.none => false
  | some s => s != ""

/-- The errors `verify_data_structure` can raise. `pyKeyError` is the
uncaught `KeyError` from indexing a missing key. -/
inductive SDKError where
  | statementHashMissing
  | invalidIdentifier (uri : PyVal)
  | hexFormatError (value : PyVal)
  | pyKeyError (k : String)
deriving DecidableEq

/-- The external collaborators of the statement module, abstracted: a
predicate for `check_identifier` (false means it raises
`InvalidIdentifierError`), a predicate for `data_utils.verify_is_hex`
(false means it raises), and the two deterministic URI derivations. -/
structure Collab where
  check_identifier : PyVal → Bool
  verify_is_hex : PyVal → Nat → Bool
  get_uri_for_statement : String → String → String → String
  update_statement_uri : String → String → String

/-- The `schema_uri` step of `verify_data_structure`: `if "schema_uri" in
input and input["schema_uri"]: check_identifier(input["schema_uri"])`. -/
def schema_field_check (c : Collab) (input : PyDict) : Except SDKError Unit :=
  match input.get "schema_uri" with
  | some scv =>
    if scv.truthy then
      if c.check_identifier scv = false then
        .error (.invalidIdentifier scv)
      else .ok ()
    else .ok ()
  | Option.none => .ok ()

/-- The last step of `verify_data_structure`:
`data_utils.verify_is_hex(input["digest"], 256)`. The key is present
whenever this step is reached. -/
def digest_hex_check (c : Collab) (input : PyDict) : Except SDKError Unit :=
  match input.get "digest" with
  | some dv =>
    if c.verify_is_hex dv 256 = false then
      .error (.hexFormatError dv)
    else .ok ()
  | Option.none => .error (.pyKeyError "digest")

/-- `verify_data_structure(input)`: raises `StatementHashMissingError` when
`digest` is absent, then indexes `input["space_uri"]` unconditionally
(a `KeyError` when absent) and checks it, then checks a present truthy
`schema_uri`, then checks that the digest is 256-bit hex. -/
def verify_data_structure (c : Collab) (input : PyDict) : Except SDKError Unit :=
  if input.hasKey "digest" = false then
    .error .statementHashMissing
  else
    match input.get "space_uri" with
    | Option.none => .error (.pyKeyError "space_uri")
    | some sv =>
      if c.check_identifier sv = false then
        .error (.invalidIdentifier sv)
      else
        match schema_field_check c input with
        | .error e => .error e
        | .ok _ => digest_hex_check c input

/-- `build_from_properties(digest, space_uri, creator_uri, schema_uri=None)`:
derives the element URI, assembles the dict (the `schema_uri` entry is the
argument when truthy, else `None`), validates it and returns it. -/
def build_from_properties (c : Collab) (digest space_uri creator_uri : String)
    (schema_uri : Option String) : Except SDKError PyDict :=
  let stmt_uri := c.get_uri_for_statement digest space_uri creator_uri
  let schemaVal : PyVal :=
    match schema_uri with
    | some s => if s != "" then .str s else .none
    | Option.none => .none
  let statement : PyDict := ⟨[("element_uri", .str stmt_uri), ("digest", .str digest),
    ("creator_uri", .str creator_uri), ("space_uri", .str space_uri),
    ("schema_uri", schemaVal)]⟩
  match verify_data_structure c statement with
  | .error e => .error e
  | .ok _ => .ok statement

/-- `build_from_update_properties(stmt_uri, digest, space_uri, creator_uri)`:
the new element URI comes from `update_statement_uri(stmt_uri, digest)`; no
`schema_uri` entry is produced. -/
def build_from_update_properties (c : Collab) (stmt_uri digest space_uri creator_uri : String) :
    Except SDKError PyDict :=
  let statement_uri := c.update_statement_uri stmt_uri digest
  let statement : PyDict := ⟨[("element_uri", .str statement_uri), ("digest", .str digest),
    ("creator_uri", .str creator_uri), ("space_uri", .str space_uri)]⟩
  match verify_data_structure c statement with
  | .error e => .error e
  | .ok _ => .ok statement

/-- The result dict of `verify_against_properties`. -/
structure VerifyResult where
  is_valid : Bool
  message : String
deriving DecidableEq

/-- The behaviour of the awaited `fetch_statement_details_from_chain` call:
it raises, or it returns a value (`None` or a dict). -/
inductive FetchOutcome where
  | raises (msg : String)
  | returns (st : Option PyDict)

/-- Python truthiness of the fetched value (`None` and an empty dict are
falsy). -/
def pyTruthyOptDict : Option PyDict → Bool
  | Option.none => false
  | some d => !d.entries.isEmpty

/-- The success result of `verify_against_properties`. -/
def valid_result : VerifyResult :=
  ⟨true, "Digest properties provided are valid and match the statement details."⟩

/-- The `schema_uri` comparison at the end of `verify_against_properties`:
run only when the argument is truthy; indexing the fetched dict may raise. -/
def schema_check (schema_uri : Option String) (st : PyDict) : Except PyExn VerifyResult :=
  if optTruthy schema_uri then
    match st.index "schema_uri" with
    | .error e => .error e
    | .ok v =>
      if PyVal.str (schema_uri.getD "") != v then
        .ok ⟨false, "Statement and Digest schema details does not match."⟩
      else .ok valid_result
  else .ok valid_result

/-- The `space_uri` comparison of `verify_against_properties`, falling
through to the schema comparison. -/
def space_check (space_uri schema_uri : Option String) (st : PyDict) :
    Except PyExn VerifyResult :=
  if optTruthy space_uri then
    match st.index "space_uri" with
    | .error e => .error e
    | .ok v =>
      if PyVal.str (space_uri.getD "") != v then
        .ok ⟨false, "Statement and Digest space details does not match."⟩
      else schema_check schema_uri st
  else schema_check schema_uri st

/-- The `creator` comparison of `verify_against_properties`, falling through
to the space and schema comparisons. -/
def creator_check (creator space_uri schema_uri : Option String) (st : PyDict) :
    Except PyExn VerifyResult :=
  if optTruthy creator then
    match st.index "creator_uri" with
    | .error e => .error e
    | .ok v =>
      if PyVal.str (creator.getD "") != v then
        .ok ⟨false, "Statement and Digest creator does not match."⟩
      else space_check space_uri schema_uri st
  else space_check space_uri schema_uri st

/-- The body of the `try` block of `verify_against_properties` once the fetch
has returned `st?`: not-found, digest, revoked, creator, space and schema
checks in order; `.error` is an uncaught Python exception. -/
def verify_statement_status (stmt_uri digest : String)
    (creator space_uri schema_uri : Option String) (st? : Option PyDict) :
    Except PyExn VerifyResult :=
  if !pyTruthyOptDict st? then
    .ok ⟨false, "Statement details for \"" ++ digest ++ "\" not found."⟩
  else
    let st := st?.getD ⟨[]⟩
    match st.index "digest" with
    | .error e => .error e
    | .ok remote =>
      if PyVal.str digest != remote then
        .ok ⟨false, "Digest does not match with Statement Digest."⟩
      else if (st.getDefault "revoked").truthy then
        .ok ⟨false, "Statement \"" ++ stmt_uri ++ "\" Revoked."⟩
      else creator_check creator space_uri schema_uri st

/-- `verify_against_properties(stmt_uri, digest, creator, space_uri,
schema_uri)`: the whole body runs in a `try` whose `except` converts any
exception — one raised by the fetch itself, or one escaping the comparisons
— into `{is_valid: False, message: "Error verifying properties: <error>"}`. -/
def verify_against_properties (fetch : FetchOutcome) (stmt_uri digest : String)
    (creator space_uri schema_uri : Option String) : VerifyResult :=
  match fetch with
  | .raises m => ⟨false, "Error verifying properties: " ++ m⟩
  | .returns st? =>
    match verify_statement_status stmt_uri digest creator space_uri schema_uri st? with
    | .ok r => r
    | .error e => ⟨false, "Error verifying properties: " ++ e.render⟩

/-- Modelled from the spec: `ConfigService` (`packages/config/src/service.py`
is not among the provided sources). The process-wide configuration state is a
mapping; `set` replaces it wholesale, `get`/`is_set`/`unset` act on single
keys, with `is_set k` true exactly when `get k` finds an entry. Handles are
an abstract type `α`. -/
structure ConfigState (α : Type) where
  entries : List (String × α)
deriving DecidableEq

/-- Modelled from the spec: `ConfigService.get(k)`. -/
def ConfigState.get {α : Type} (st : ConfigState α) (k : String) : Option α :=
  (st.entries.find? (fun kv => kv.1 == k)).map (fun kv => kv.2)

/-- Modelled from the spec: `ConfigService.unset(k)` removes the entry. -/
def ConfigState.unset {α : Type} (st : ConfigState α) (k : String) : ConfigState α :=
  ⟨st.entries.filter (fun kv => kv.1 != k)⟩

/-- Modelled from the spec: `ConfigService.set(configs)` replaces the state
wholesale. -/
def ConfigState.setAll {α : Type} (_st : ConfigState α) (configs : List (String × α)) :
    ConfigState α :=
  ⟨configs⟩

/-- `init(configs=None)`: `ConfigService.set(configs or {})` — a `None` or
empty mapping argument is falsy, so the state becomes the empty mapping. -/
def init {α : Type} (configs : Option (List (String × α))) (st : ConfigState α) :
    ConfigState α :=
  st.setAll (match configs with
    | some l => if l.isEmpty then [] else l
    | Option.none => [])

/-- The behaviour of the steps of `connect` that precede storing the handle:
the type-registry file load raises, the `SubstrateInterface` construction
raises (`SubstrateRequestException`, logged then re-raised), or a handle is
obtained. -/
inductive ConnectOutcome (α : Type) where
  | registryLoadRaises (msg : String)
  | transportRaises (msg : String)
  | opens (handle : α)

/-- `connect(url, ...)`: on success stores the handle via
`init({"api": substrate})` and returns it; on failure the error propagates
and `init` is never reached. The pair is (returned value or error, resulting
process-wide state). -/
def connect {α : Type} (outcome : ConnectOutcome α) (st : ConfigState α) :
    Except String α × ConfigState α :=
  match outcome with
  | .registryLoadRaises m => (.error m, st)
  | .transportRaises m => (.error m, st)
  | .opens h => (.ok h, init (some [("api", h)]) st)

/-- `disconnect()`: returns `False` untouched when no `api` handle is stored
(`ConfigService.is_set("api")` is `get`-presence); otherwise reads the
handle, unsets it and closes it, returning `True`. The triple is (returned
bool, resulting state, the handle that got closed, if any). -/
def disconnect {α : Type} (st : ConfigState α) : Bool × ConfigState α × Option α :=
  match st.get "api" with
  | Option.none => (false, st, Option.none)
  | some h => (true, st.unset "api", some h)

/-- A collaborator that accepts every identifier and every hex value, with
concrete deterministic URI derivations. -/
def collabAll : Collab :=
  ⟨fun _ => true, fun _ _ => true,
   fun d s c => "stmt:" ++ d ++ ":" ++ s ++ ":" ++ c,
   fun u d => u ++ "#" ++ d⟩

/-- A collaborator that rejects exactly the identifier "schema:bad". -/
def collabRejectBad : Collab :=
  ⟨fun v => v != .str "schema:bad", fun _ _ => true,
   fun _ _ _ => "stmt:new", fun u _ => u⟩

/-- A remote record that is revoked and whose creator, space and schema all
differ from the filters supplied in the concrete check below. -/
def remoteRevoked : PyDict :=
  ⟨[("digest", .str "0xAA"), ("creator_uri", .str "did:other"),
    ("space_uri", .str "space:other"), ("schema_uri", .str "schema:other"),
    ("revoked", .bool true)]⟩

/-- A non-revoked remote record with creator `did:c1`, fetched intact. -/
def remoteStC3 : PyDict :=
  ⟨[("digest", .str "0xAA"), ("creator_uri", .str "did:c1"),
    ("space_uri", .str "space:s1"), ("schema_uri", .str "schema:x"),
    ("revoked", .bool false)]⟩

lemma schema_field_check_ne_shm (c : Collab) (input : PyDict) :
    schema_field_check c input ≠ .error .statementHashMissing := by
  unfold schema_field_check
  split
  · split
    · split <;> simp
    · simp
  · simp

lemma digest_hex_check_ne_shm (c : Collab) (input : PyDict) :
    digest_hex_check c input ≠ .error .statementHashMissing := by
  unfold digest_hex_check
  split
  · split <;> simp
  · simp

lemma get_unset {α : Type} (st : ConfigState α) (k : String) :
    (st.unset k).get k = Option.none := by
  simp only [ConfigState.unset, ConfigState.get, Option.map_eq_none',
    List.find?_eq_none, List.mem_filter, bne_iff_ne, beq_iff_eq]
  intro a ha
  exact ha.2

/-- C6: `verify_data_structure` fails with `StatementHashMissing` exactly
when the `digest` key is absent from the input mapping, whatever the values
or presence of every other field and whatever the identifier and hex
collaborators decide. -/
theorem statement_hash_missing_iff (c : Collab) (input : PyDict) :
    (verify_data_structure c input = .error .statementHashMissing) ↔
      input.hasKey "digest" = false := by
  unfold verify_data_structure
  by_cases hk : input.hasKey "digest" = false
  · simp [hk]
  · rw [if_neg hk]
    constructor
    · intro heq
      exfalso
      cases hsp : input.get "space_uri" with
      | none =>
        simp only [hsp] at heq
        simp at heq
      | some sv =>
        simp only [hsp] at heq
        by_cases hci : c.check_identifier sv = false
        · rw [if_pos hci] at heq
          simp at heq
        · rw [if_neg hci] at heq
          cases hss : schema_field_check c input with
          | error e =>
            simp only [hss] at heq
            exact schema_field_check_ne_shm c input (hss.trans heq)
          | ok u =>
            simp only [hss] at heq
            exact digest_hex_check_ne_shm c input heq
    · intro h
      exact absurd h hk

/-- C9: when the input mapping has a `digest` key but no `space_uri` key,
`verify_data_structure` raises the `KeyError` from indexing
`input["space_uri"]` — neither `StatementHashMissing` nor
`InvalidIdentifier` — for every collaborator behaviour. -/
theorem space_uri_key_error (c : Collab) (input : PyDict)
    (hd : input.hasKey "digest" = true) (hs : input.get "space_uri" = Option.none) :
    verify_data_structure c input = .error (.pyKeyError "space_uri") := by
  unfold verify_data_structure
  simp [hd, hs]

/-- Witness for C9 at the concrete input `{"digest": "0xAA"}`. -/
theorem space_uri_key_error_wit :
    ((⟨[("digest", PyVal.str "0xAA")]⟩ : PyDict).hasKey "digest" = true)
    ∧ verify_data_structure collabAll ⟨[("digest", PyVal.str "0xAA")]⟩ =
        .error (.pyKeyError "space_uri") :=
  ⟨rfl, space_uri_key_error collabAll ⟨[("digest", PyVal.str "0xAA")]⟩ rfl rfl⟩

/-- C4 (amended): for a valid digest, valid space and creator identifiers,
and a schema argument that is omitted, empty, or a valid identifier,
`build_from_properties` returns the record whose `digest`, `creator_uri` and
`space_uri` fields equal the inputs, whose `schema_uri` field is the input
when non-empty and `None` when omitted or empty, and whose `element_uri` is
`get_uri_for_statement(digest, space_uri, creator_uri)`. -/
theorem build_from_properties_ok (c : Collab) (digest space_uri creator_uri : String)
    (schema_uri : Option String)
    (hsp : c.check_identifier (.str space_uri) = true)
    (_hcr : c.check_identifier (.str creator_uri) = true)
    (hx : c.verify_is_hex (.str digest) 256 = true)
    (hsc : ∀ s, schema_uri = some s → s ≠ "" → c.check_identifier (.str s) = true) :
    build_from_properties c digest space_uri creator_uri schema_uri =
      .ok ⟨[("element_uri", .str (c.get_uri_for_statement digest space_uri creator_uri)),
            ("digest", .str digest), ("creator_uri", .str creator_uri),
            ("space_uri", .str space_uri),
            ("schema_uri", match schema_uri with
              | some s => if s != "" then .str s else .none
              | Option.none => .none)]⟩ := by
  unfold build_from_properties verify_data_structure schema_field_check digest_hex_check
  cases schema_uri with
  | none => simp [PyDict.hasKey, PyDict.get, PyVal.truthy, hsp, hx]
  | some s =>
    by_cases hs : s = ""
    · subst hs; simp [PyDict.hasKey, PyDict.get, PyVal.truthy, hsp, hx]
    · have hcs := hsc s rfl hs
      simp [PyDict.hasKey, PyDict.get, PyVal.truthy, hsp, hx, hcs, hs]

/-- Witness for C4 (amended) at concrete valid inputs. -/
theorem build_from_properties_ok_wit :
    build_from_properties collabAll "0xAA" "space:s1" "did:c1" (some "schema:x") =
      .ok ⟨[("element_uri", .str (collabAll.get_uri_for_statement "0xAA" "space:s1" "did:c1")),
            ("digest", .str "0xAA"), ("creator_uri", .str "did:c1"),
            ("space_uri", .str "space:s1"),
            ("schema_uri", if "schema:x" != "" then PyVal.str "schema:x" else PyVal.none)]⟩ :=
  build_from_properties_ok collabAll "0xAA" "space:s1" "did:c1" (some "schema:x")
    rfl rfl rfl (fun _ h _ => by cases h; rfl)

/-- C4 counterexample: with valid digest, space and creator, a schema
argument the identifier collaborator rejects makes `build_from_properties`
raise instead of returning a record, and an empty schema argument yields a
record whose `schema_uri` field is `None`, not the supplied empty string. -/
theorem build_from_properties_cex :
    collabRejectBad.verify_is_hex (.str "0xAA") 256 = true
    ∧ collabRejectBad.check_identifier (.str "space:s1") = true
    ∧ collabRejectBad.check_identifier (.str "did:c1") = true
    ∧ build_from_properties collabRejectBad "0xAA" "space:s1" "did:c1" (some "schema:bad") =
        .error (.invalidIdentifier (.str "schema:bad"))
    ∧ build_from_properties collabRejectBad "0xAA" "space:s1" "did:c1" (some "") =
        .ok ⟨[("element_uri", .str "stmt:new"), ("digest", .str "0xAA"),
              ("creator_uri", .str "did:c1"), ("space_uri", .str "space:s1"),
              ("schema_uri", PyVal.none)]⟩
    ∧ PyVal.none ≠ PyVal.str "" := by
  refine ⟨rfl, rfl, rfl, rfl, rfl, by decide⟩

/-- C5: the `element_uri` of any two records returned by
`build_from_update_properties` for the same `(stmt_uri, digest)` is the same
— it is `update_statement_uri(stmt_uri, digest)` — however the `space_uri`
and `creator_uri` arguments differ. -/
theorem update_element_uri_independent (c : Collab) (stmt_uri digest s1 cr1 s2 cr2 : String)
    (r1 r2 : PyDict)
    (h1 : build_from_update_properties c stmt_uri digest s1 cr1 = .ok r1)
    (h2 : build_from_update_properties c stmt_uri digest s2 cr2 = .ok r2) :
    r1.get "element_uri" = r2.get "element_uri" ∧
    r1.get "element_uri" = some (.str (c.update_statement_uri stmt_uri digest)) := by
  unfold build_from_update_properties at h1 h2
  dsimp only at h1 h2
  split at h1
  · simp at h1
  · split at h2
    · simp at h2
    · have e1 : r1 = ⟨[("element_uri", .str (c.update_statement_uri stmt_uri digest)),
        ("digest", .str digest), ("creator_uri", .str cr1), ("space_uri", .str s1)]⟩ := by
        injection h1 with h; exact h.symm
      have e2 : r2 = ⟨[("element_uri", .str (c.update_statement_uri stmt_uri digest)),
        ("digest", .str digest), ("creator_uri", .str cr2), ("space_uri", .str s2)]⟩ := by
        injection h2 with h; exact h.symm
      subst e1; subst e2
      exact ⟨rfl, rfl⟩

/-- Witness for C5 at two concrete calls differing in space and creator. -/
theorem update_element_uri_independent_wit :
    (⟨[("element_uri", .str (collabAll.update_statement_uri "stmt:old" "0xBB")),
       ("digest", .str "0xBB"), ("creator_uri", .str "did:c1"),
       ("space_uri", .str "space:s1")]⟩ : PyDict).get "element_uri" =
      (⟨[("element_uri", .str (collabAll.update_statement_uri "stmt:old" "0xBB")),
         ("digest", .str "0xBB"), ("creator_uri", .str "did:c2"),
         ("space_uri", .str "space:s2")]⟩ : PyDict).get "element_uri"
    ∧ (⟨[("element_uri", .str (collabAll.update_statement_uri "stmt:old" "0xBB")),
         ("digest", .str "0xBB"), ("creator_uri", .str "did:c1"),
         ("space_uri", .str "space:s1")]⟩ : PyDict).get "element_uri" =
        some (.str (collabAll.update_statement_uri "stmt:old" "0xBB")) :=
  update_element_uri_independent collabAll "stmt:old" "0xBB" "space:s1" "did:c1"
    "space:s2" "did:c2" _ _ rfl rfl

/-- C1: the checks of `verify_against_properties` run in the fixed order
not-found, digest, revoked, creator, space, schema; whichever fails first
fixes the returned message whatever the later fields hold — in particular a
revoked record with a matching digest yields the revocation message even
when creator, space and schema all mismatch. -/
theorem verify_checks_fixed_order (su dg : String) (cr sp sc : Option String) :
    (∀ st? : Option PyDict, pyTruthyOptDict st? = false →
      verify_against_properties (.returns st?) su dg cr sp sc =
        ⟨false, "Statement details for \"" ++ dg ++ "\" not found."⟩)
    ∧ (∀ st : PyDict, st.entries.isEmpty = false → ∀ v, st.get "digest" = some v →
        (PyVal.str dg != v) = true →
        verify_against_properties (.returns (some st)) su dg cr sp sc =
          ⟨false, "Digest does not match with Statement Digest."⟩)
    ∧ (∀ st : PyDict, st.entries.isEmpty = false → st.get "digest" = some (.str dg) →
        (st.getDefault "revoked").truthy = true →
        verify_against_properties (.returns (some st)) su dg cr sp sc =
          ⟨false, "Statement \"" ++ su ++ "\" Revoked."⟩)
    ∧ (∀ st : PyDict, st.entries.isEmpty = false → st.get "digest" = some (.str dg) →
        (st.getDefault "revoked").truthy = false →
        optTruthy cr = true → ∀ v, st.get "creator_uri" = some v →
        (PyVal.str (cr.getD "") != v) = true →
        verify_against_properties (.returns (some st)) su dg cr sp sc =
          ⟨false, "Statement and Digest creator does not match."⟩)
    ∧ (∀ st : PyDict, st.entries.isEmpty = false → st.get "digest" = some (.str dg) →
        (st.getDefault "revoked").truthy = false →
        (optTruthy cr = false ∨ st.get "creator_uri" = some (.str (cr.getD ""))) →
        optTruthy sp = true → ∀ v, st.get "space_uri" = some v →
        (PyVal.str (sp.getD "") != v) = true →
        verify_against_properties (.returns (some st)) su dg cr sp sc =
          ⟨false, "Statement and Digest space details does not match."⟩)
    ∧ (∀ st : PyDict, st.entries.isEmpty = false → st.get "digest" = some (.str dg) →
        (st.getDefault "revoked").truthy = false →
        (optTruthy cr = false ∨ st.get "creator_uri" = some (.str (cr.getD ""))) →
        (optTruthy sp = false ∨ st.get "space_uri" = some (.str (sp.getD ""))) →
        optTruthy sc = true → ∀ v, st.get "schema_uri" = some v →
        (PyVal.str (sc.getD "") != v) = true →
        verify_against_properties (.returns (some st)) su dg cr sp sc =
          ⟨false, "Statement and Digest schema details does not match."⟩) := by
  refine ⟨?_, ?_, ?_, ?_, ?_, ?_⟩
  · intro st? h
    simp [verify_against_properties, verify_statement_status, h]
  · intro st hne v hv hmm
    simp [verify_against_properties, verify_statement_status, pyTruthyOptDict,
      PyDict.index, hne, hv, hmm]
  · intro st hne hdg hrv
    simp [verify_against_properties, verify_statement_status, pyTruthyOptDict,
      PyDict.index, hne, hdg, hrv]
  · intro st hne hdg hrv hcr v hv hmm
    simp [verify_against_properties, verify_statement_status, creator_check,
      pyTruthyOptDict, PyDict.index, hne, hdg, hrv, hcr, hv, hmm]
  · intro st hne hdg hrv hcr hsp v hv hmm
    rcases hcr with hcr | hcr <;>
      simp [verify_against_properties, verify_statement_status, creator_check,
        space_check, pyTruthyOptDict, PyDict.index, hne, hdg, hrv, hcr, hsp, hv, hmm]
  · intro st hne hdg hrv hcr hsp hsc v hv hmm
    rcases hcr with hcr | hcr <;> rcases hsp with hsp | hsp <;>
      simp [verify_against_properties, verify_statement_status, creator_check,
        space_check, schema_check, pyTruthyOptDict, PyDict.index, hne, hdg, hrv,
        hcr, hsp, hsc, hv, hmm]

/-- Witness for C1: a revoked record with matching digest and mismatching
creator, space and schema yields the revocation message. -/
theorem verify_checks_fixed_order_wit :
    verify_against_properties (.returns (some remoteRevoked)) "stmt:u" "0xAA"
        (some "did:c1") (some "space:s1") (some "schema:x") =
      ⟨false, "Statement \"" ++ "stmt:u" ++ "\" Revoked."⟩ :=
  ((verify_checks_fixed_order "stmt:u" "0xAA" (some "did:c1") (some "space:s1")
      (some "schema:x")).2.2.1) remoteRevoked rfl rfl rfl

/-- C2: `verify_against_properties` always returns an `{is_valid, message}`
record: a raising fetch, and any exception escaping the comparisons over the
fetched record (such as the `KeyError` of a record lacking an expected
field), are converted into
`{is_valid: false, message: "Error verifying properties: <error>"}`. -/
theorem verify_never_raises (su dg : String) (cr sp sc : Option String) :
    (∀ m, verify_against_properties (.raises m) su dg cr sp sc =
        ⟨false, "Error verifying properties: " ++ m⟩)
    ∧ (∀ (st? : Option PyDict) (e : PyExn),
        verify_statement_status su dg cr sp sc st? = .error e →
        verify_against_properties (.returns st?) su dg cr sp sc =
          ⟨false, "Error verifying properties: " ++ e.render⟩) := by
  constructor
  · intro m; rfl
  · intro st? e h
    simp [verify_against_properties, h]

/-- Witness for C2: a raising fetch, and a fetched record lacking the
`creator_uri` key while the creator filter is supplied. -/
theorem verify_never_raises_wit :
    verify_against_properties (.raises "boom") "stmt:u" "0xAA"
        Option.none Option.none Option.none =
      ⟨false, "Error verifying properties: " ++ "boom"⟩
    ∧ verify_against_properties
        (.returns (some ⟨[("digest", PyVal.str "0xAA")]⟩)) "stmt:u" "0xAA"
        (some "did:c1") Option.none Option.none =
      ⟨false, "Error verifying properties: " ++ PyExn.render (.keyError "creator_uri")⟩ :=
  ⟨(verify_never_raises "stmt:u" "0xAA" Option.none Option.none Option.none).1 "boom",
   (verify_never_raises "stmt:u" "0xAA" (some "did:c1") Option.none Option.none).2
     (some ⟨[("digest", PyVal.str "0xAA")]⟩) (.keyError "creator_uri") rfl⟩

/-- C3 counterexample: an empty-string creator differs from the remote
creator `did:c1`, yet the check is skipped (`if creator:` is falsy) and the
call returns the success result instead of the creator-mismatch message. -/
theorem creator_empty_skipped_cex :
    (("" : String) != "did:c1") = true
    ∧ remoteStC3.get "creator_uri" = some (.str "did:c1")
    ∧ verify_against_properties (.returns (some remoteStC3)) "stmt:u" "0xAA"
        (some "") Option.none Option.none = valid_result
    ∧ valid_result.is_valid = true :=
  ⟨rfl, rfl, rfl, rfl⟩

/-- C3 (amended): for every supplied non-empty creator value, if the record
is found, the digests match, the record is not revoked and the remote
`creator_uri` entry is present, a differing creator yields
`{is_valid: false, message: "Statement and Digest creator does not
match."}`; an empty-string creator is falsy and skips the check. -/
theorem creator_mismatch_reported (su dg c : String) (sp sc : Option String)
    (st : PyDict) (hne : st.entries.isEmpty = false)
    (hdg : st.get "digest" = some (.str dg))
    (hrv : (st.getDefault "revoked").truthy = false)
    (hc : (c != "") = true)
    (v : PyVal) (hv : st.get "creator_uri" = some v)
    (hmm : (PyVal.str c != v) = true) :
    verify_against_properties (.returns (some st)) su dg (some c) sp sc =
      ⟨false, "Statement and Digest creator does not match."⟩ := by
  simp [verify_against_properties, verify_statement_status, creator_check,
    optTruthy, pyTruthyOptDict, PyDict.index, hne, hdg, hrv, hc, hv, hmm]

/-- Witness for C3 (amended) at a concrete mismatching creator. -/
theorem creator_mismatch_reported_wit :
    verify_against_properties (.returns (some remoteStC3)) "stmt:u" "0xAA"
        (some "did:c2") Option.none Option.none =
      ⟨false, "Statement and Digest creator does not match."⟩ :=
  creator_mismatch_reported "stmt:u" "0xAA" "did:c2" Option.none Option.none
    remoteStC3 rfl rfl rfl rfl (.str "did:c1") rfl rfl

/-- C7: `disconnect` is total; with no stored handle it returns `False` and
leaves the state unchanged, otherwise it removes the `api` entry, closes
that handle and returns `True`, so a second call returns `False`. -/
theorem disconnect_spec {α : Type} (st : ConfigState α) :
    (st.get "api" = Option.none → disconnect st = (false, st, Option.none))
    ∧ (∀ h : α, st.get "api" = some h →
        disconnect st = (true, st.unset "api", some h)
        ∧ (st.unset "api").get "api" = Option.none
        ∧ (disconnect (disconnect st).2.1).1 = false) := by
  constructor
  · intro h
    simp [disconnect, h]
  · intro h hh
    have h1 : disconnect st = (true, st.unset "api", some h) := by
      simp [disconnect, hh]
    refine ⟨h1, get_unset st "api", ?_⟩
    rw [h1]
    show (disconnect (st.unset "api")).1 = false
    simp [disconnect, get_unset st "api"]

/-- Witness for C7 at a concrete state holding one handle. -/
theorem disconnect_spec_wit :
    disconnect (⟨[("api", 7)]⟩ : ConfigState Nat) =
        (true, ConfigState.unset ⟨[("api", 7)]⟩ "api", some 7)
    ∧ (ConfigState.unset (⟨[("api", 7)]⟩ : ConfigState Nat) "api").get "api" = Option.none
    ∧ (disconnect (disconnect (⟨[("api", 7)]⟩ : ConfigState Nat)).2.1).1 = false :=
  (disconnect_spec (⟨[("api", 7)]⟩ : ConfigState Nat)).2 7 rfl

/-- C8 counterexample: a failing `connect` from a state already holding a
handle leaves that state unchanged, yet the state does contain an `api`
entry and the subsequent `disconnect` returns `True`, not `False`. -/
theorem connect_fail_cex :
    ((connect (.transportRaises "boom") (⟨[("api", 5)]⟩ : ConfigState Nat)).2 =
        (⟨[("api", 5)]⟩ : ConfigState Nat))
    ∧ (⟨[("api", 5)]⟩ : ConfigState Nat).get "api" = some 5
    ∧ (disconnect (⟨[("api", 5)]⟩ : ConfigState Nat)).1 = true :=
  ⟨rfl, rfl, rfl⟩

/-- C8 (amended): a failing `connect` — registry load or transport — leaves
the state unchanged and propagates the error; when the state held no `api`
entry beforehand it still holds none, so a subsequent `disconnect` returns
`False`. -/
theorem connect_fail_spec {α : Type} (m : String) (st : ConfigState α) :
    (connect (.transportRaises m) st).2 = st
    ∧ (connect (.registryLoadRaises m) st).2 = st
    ∧ (connect (.transportRaises m) st).1 = .error m
    ∧ (connect (.registryLoadRaises m) st).1 = .error m
    ∧ (st.get "api" = Option.none →
        ((connect (.transportRaises m) st).2).get "api" = Option.none
        ∧ (disconnect (connect (.transportRaises m) st).2).1 = false) := by
  refine ⟨rfl, rfl, rfl, rfl, ?_⟩
  intro h
  refine ⟨h, ?_⟩
  show (disconnect st).1 = false
  simp [disconnect, h]

/-- Witness for C8 (amended) from the empty state. -/
theorem connect_fail_spec_wit :
    ((connect (.transportRaises "boom") (⟨[]⟩ : ConfigState Nat)).2).get "api" = Option.none
    ∧ (disconnect (connect (.transportRaises "boom") (⟨[]⟩ : ConfigState Nat)).2).1 = false :=
  (connect_fail_spec "boom" (⟨[]⟩ : ConfigState Nat)).2.2.2.2 rfl

/-- C10: a successful `connect` returns the handle and replaces the
process-wide state wholesale with the single-entry mapping
`{"api": handle}`, discarding whatever an earlier `init` had stored. -/
theorem connect_success_state {α : Type} (st : ConfigState α) (h : α) :
    connect (.opens h) st = (.ok h, ⟨[("api", h)]⟩) := rfl
